import Mathlib

/-!
Verification of the `sweet-potato` blockchain indexer (`src/indexer/src/main.rs`)
against its natural-language specification.

The development shallowly embeds the pipeline:
  * `JValue` models `serde_json::Value`; objects are association lists with the
    unique keys of a `serde_json::Map`, and `JValue.time` models a serialized
    `chrono::DateTime<Utc>` (kept as seconds since the Unix epoch; the RFC 3339
    string round-trips through serde, so equality of instants is preserved).
  * Strings are modelled as sequences of ASCII characters, which is the wire
    format of every JSON-RPC hex field, so the Rust byte slice `&s[2..]` is
    char-based slicing and goes out of bounds exactly when the string is
    shorter than two characters.  An out-of-bounds slice is a Rust panic and is
    modelled as the `crashed` outcome, which aborts the whole run.
  * Network calls (`reqwest` POSTs) are modelled by an environment `RpcEnv`
    giving, per height, the decoded JSON body (or transport/parse error) of
    each of the three call sites in the source: the orchestrator block fetch,
    the receipts fetch, and the block re-fetch performed inside
    `convert_receipts_hex_to_decimal`.  Two temporally distinct calls may
    return different data, which the three separate slots capture.
  * The ClickHouse inserters are modelled as event traces: a `write` call
    appends an event; `end()` reports the number of rows written.  Store-side
    failures are outside the model; the claims settled here are about fetch,
    conversion and validation behavior.
-/

set_option maxRecDepth 8192

namespace Indexer

/-- JSON values as produced and consumed by the indexer. -/
inductive JValue : Type where
  | null : JValue
  | bool : Bool → JValue
  | num : Int → JValue
  | str : String → JValue
  | time : Int → JValue
  | arr : List JValue → JValue
  | obj : List (String × JValue) → JValue

abbrev JObj := List (String × JValue)

/-- Lookup of a key in a JSON object (`serde_json::Map::get`). -/
def jLookup : JObj → String → Option JValue
  | [], _ => none
  | (k, v) :: rest, key => if k = key then some v else jLookup rest key

/-- Value lookup as in `Value::get(key)`: `none` on non-objects. -/
def jGet (v : JValue) (key : String) : Option JValue :=
  match v with
  | .obj fs => jLookup fs key
  | _ => none

/-- Indexing as in `value[key]`, which yields `Null` for non-objects and
missing keys. -/
def jIndexStr (v : JValue) (key : String) : JValue :=
  match jGet v key with
  | some x => x
  | none => .null

/-- Outcome of a fallible, possibly panicking computation: `ok` is a normal
result, `err` a recoverable `anyhow::Error`, and `crashed` a Rust panic (which
kills the process). -/
inductive CResult (α : Type) : Type where
  | ok : α → CResult α
  | err : String → CResult α
  | crashed : CResult α

def CResult.bind {α β : Type} : CResult α → (α → CResult β) → CResult β
  | .ok a, f => f a
  | .err e, _ => .err e
  | .crashed, _ => .crashed

/-! ### Integer ranges and `from_str_radix` -/

def I64_MIN : Int := -(2 ^ 63)
def I64_MAX : Int := 2 ^ 63 - 1
def I128_MIN : Int := -(2 ^ 127)
def I128_MAX : Int := 2 ^ 127 - 1
def U64_MAX : Int := 2 ^ 64 - 1

/-- Value of one hexadecimal digit; `from_str_radix` accepts both cases. -/
def hexDigitVal (c : Char) : Option Nat :=
  if '0' ≤ c ∧ c ≤ '9' then some (c.toNat - '0'.toNat)
  else if 'a' ≤ c ∧ c ≤ 'f' then some (c.toNat - 'a'.toNat + 10)
  else if 'A' ≤ c ∧ c ≤ 'F' then some (c.toNat - 'A'.toNat + 10)
  else none

/-- Accumulator loop of base-16 digit parsing. -/
def hexDigitsAccum : Nat → List Char → Option Nat
  | acc, [] => some acc
  | acc, c :: rest =>
    match hexDigitVal c with
    | some d => hexDigitsAccum (acc * 16 + d) rest
    | none => none

/-- Parse a nonempty run of base-16 digits; empty input is an error. -/
def hexDigitsVal : List Char → Option Nat
  | [] => none
  | cs => hexDigitsAccum 0 cs

/-- Model of `{i64,i128}::from_str_radix(s, 16)` before the range check: an
optional sign followed by a nonempty digit run. -/
def fromStrRadix16 (s : String) : Option Int :=
  match s.data with
  | [] => none
  | c :: rest =>
    if c = '+' then (hexDigitsVal rest).map (fun n => (n : Int))
    else if c = '-' then (hexDigitsVal rest).map (fun n => -(n : Int))
    else (hexDigitsVal (c :: rest)).map (fun n => (n : Int))

/-- Model of `from_str_radix` for a bounded signed integer type: overflow is an
`Err`, exactly like a malformed digit. -/
def parseRadix16In (lo hi : Int) (s : String) : Option Int :=
  match fromStrRadix16 s with
  | some v => if lo ≤ v ∧ v ≤ hi then some v else none
  | none => none

/-- Rust `&s[2..]` on an ASCII string: out of bounds (a panic, `none`) when the
string is shorter than two characters. -/
def sliceFrom2 (s : String) : Option String :=
  if s.data.length < 2 then none else some (String.mk (s.data.drop 2))

/-- Timestamp range accepted by `chrono::DateTime::from_timestamp(secs, 0)`:
the instants representable by a `NaiveDateTime` (years -262143 to 262142). -/
def CHRONO_MIN_TS : Int := -8334601228800
def CHRONO_MAX_TS : Int := 8210266876799

/-- Model of `DateTime::from_timestamp(secs, 0).unwrap_or_default()`: the Unix
epoch is substituted when the seconds are outside the representable range. -/
def dateTimeFromTimestampOrDefault (secs : Int) : Int :=
  if CHRONO_MIN_TS ≤ secs ∧ secs ≤ CHRONO_MAX_TS then secs else 0

/-- Whether `serde_json::to_value` can represent an `i128` as a JSON number
(`Number` holds `i64` or `u64`); outside this range the `json!` macro panics on
its internal `unwrap`. -/
def jsonNumberRepresentable (v : Int) : Prop := I64_MIN ≤ v ∧ v ≤ U64_MAX

instance (v : Int) : Decidable (jsonNumberRepresentable v) := by
  unfold jsonNumberRepresentable; infer_instance

/-! ### Per-field conversion steps

Each mirrors one `if let Some(field) = obj.get_mut(..)` block of the source:
non-strings are untouched, a parse failure leaves the original string in
place, and only a successful parse replaces the value. -/

/-- Conversion of an `i128`-typed field (`difficulty`, `baseFeePerGas`,
`gasLimit`, `gasUsed`, `size`, `totalDifficulty`, `cumulativeGasUsed`,
`effectiveGasPrice`). -/
def convI128Field (v : JValue) : CResult JValue :=
  match v with
  | .str hex =>
    match sliceFrom2 hex with
    | none => .crashed
    | some body =>
      match parseRadix16In I128_MIN I128_MAX body with
      | some val =>
        if jsonNumberRepresentable val then .ok (.num val) else .crashed
      | none => .ok (.str hex)
  | v => .ok v

/-- Conversion of an `i64`-typed field (`number`, `transactionIndex`, log
`blockNumber`). -/
def convI64Field (v : JValue) : CResult JValue :=
  match v with
  | .str hex =>
    match sliceFrom2 hex with
    | none => .crashed
    | some body =>
      match parseRadix16In I64_MIN I64_MAX body with
      | some val => .ok (.num val)
      | none => .ok (.str hex)
  | v => .ok v

/-- Conversion of the block `timestamp` field: decode as `i64`, build a
`DateTime` (epoch on out-of-range), serialize it back. -/
def convTimestampField (v : JValue) : CResult JValue :=
  match v with
  | .str hex =>
    match sliceFrom2 hex with
    | none => .crashed
    | some body =>
      match parseRadix16In I64_MIN I64_MAX body with
      | some val => .ok (.time (dateTimeFromTimestampOrDefault val))
      | none => .ok (.str hex)
  | v => .ok v

/-- Conversion of log `logIndex` and `transactionIndex`: decode as `i64` and
re-serialize the decimal value as a string (`json!(val.to_string())`). -/
def convI64StringField (v : JValue) : CResult JValue :=
  match v with
  | .str hex =>
    match sliceFrom2 hex with
    | none => .crashed
    | some body =>
      match parseRadix16In I64_MIN I64_MAX body with
      | some val => .ok (.str (toString val))
      | none => .ok (.str hex)
  | v => .ok v

/-- Conversion of the receipt `type` tag: strip a leading `0x`, keep the rest
as a plain string (the `starts_with` guard makes the slice safe). -/
def convTypeField (v : JValue) : JValue :=
  match v with
  | .str hex =>
    match hex.data with
    | '0' :: 'x' :: rest => .str (String.mk rest)
    | _ => .str hex
  | v => v

/-! ### Object editing primitives (`serde_json::Map` operations) -/

/-- Apply `f` to the value at `key`, in place, if present
(`obj.get_mut(key)`); an absent key is a no-op. -/
def mapField (key : String) (f : JValue → CResult JValue) : JObj → CResult JObj
  | [] => .ok []
  | (k, v) :: rest =>
    if k = key then
      match f v with
      | .ok v' => .ok ((k, v') :: rest)
      | .err e => .err e
      | .crashed => .crashed
    else
      match mapField key f rest with
      | .ok rest' => .ok ((k, v) :: rest')
      | .err e => .err e
      | .crashed => .crashed

/-- Model of `Map::remove(key)`. -/
def removeField (key : String) : JObj → JObj
  | [] => []
  | (k, v) :: rest =>
    if k = key then rest else (k, v) :: removeField key rest

/-- Model of `Map::insert(key, v)`: replace the value if the key is present,
otherwise add the entry. -/
def insertField (key : String) (v : JValue) : JObj → JObj
  | [] => [(key, v)]
  | (k, v') :: rest =>
    if k = key then (k, v) :: rest else (k, v') :: insertField key v rest

/-- Rust `as i64` cast of a `u64` (two's complement wrap). -/
def u64AsI64 (n : Nat) : Int :=
  let m : Nat := n % 2 ^ 64
  if m < 2 ^ 63 then (m : Int) else (m : Int) - 2 ^ 64

/-! ### The normalizer (`convert_block_hex_to_decimal`,
`convert_receipts_hex_to_decimal`) -/

/-- Model of `convert_block_hex_to_decimal`: convert the seven numeric fields
and the timestamp, in source order; non-objects pass through unchanged. -/
def convert_block_hex_to_decimal (block : JValue) : CResult JValue :=
  match block with
  | .obj fs =>
    (mapField "difficulty" convI128Field fs).bind fun fs =>
    (mapField "baseFeePerGas" convI128Field fs).bind fun fs =>
    (mapField "gasLimit" convI128Field fs).bind fun fs =>
    (mapField "gasUsed" convI128Field fs).bind fun fs =>
    (mapField "number" convI64Field fs).bind fun fs =>
    (mapField "size" convI128Field fs).bind fun fs =>
    (mapField "totalDifficulty" convI128Field fs).bind fun fs =>
    (mapField "timestamp" convTimestampField fs).bind fun fs =>
    .ok (.obj fs)
  | v => .ok v

/-- Model of `get_block`: the environment supplies the decoded JSON response
body (or a transport/JSON error); the function unwraps the `result` field. -/
def get_block (resp : Except String JValue) : Except String JValue :=
  match resp with
  | .error e => .error e
  | .ok data =>
    match jGet data "result" with
    | some result => .ok result
    | none => .error "No result field in response"

/-- Model of `get_block_receipts`, identical unwrapping of the `result`
envelope. -/
def get_block_receipts (resp : Except String JValue) : Except String JValue :=
  match resp with
  | .error e => .error e
  | .ok data =>
    match jGet data "result" with
    | some result => .ok result
    | none => .error "No result field in response"

/-- Conversion of one log object inside a receipt: `logIndex`, `blockNumber`,
`transactionIndex`, in source order. -/
def convLog (v : JValue) : CResult JValue :=
  match v with
  | .obj fs =>
    (mapField "logIndex" convI64StringField fs).bind fun fs =>
    (mapField "blockNumber" convI64Field fs).bind fun fs =>
    (mapField "transactionIndex" convI64StringField fs).bind fun fs =>
    .ok (.obj fs)
  | v => .ok v

/-- Element-wise log conversion. -/
def convLogList : List JValue → CResult (List JValue)
  | [] => .ok []
  | l :: rest =>
    (convLog l).bind fun l' =>
    (convLogList rest).bind fun rest' =>
    .ok (l' :: rest')

/-- Conversion of the `logs` field: only arrays are entered
(`get_mut("logs").and_then(Value::as_array_mut)`). -/
def convLogsField (v : JValue) : CResult JValue :=
  match v with
  | .arr ls => (convLogList ls).bind fun ls' => .ok (.arr ls')
  | v => .ok v

/-- Conversion of a single receipt object: drop the legacy snake-case keys,
inject `blockNumber` (the loop height, cast `as i64`) and `blockTimestamp`
(the decoded block timestamp), then convert the numeric fields, the logs and
the `type` tag.  Non-objects pass through unchanged. -/
def convReceipt (block_number : Nat) (timestamp : JValue) (receipt : JValue) :
    CResult JValue :=
  match receipt with
  | .obj fs =>
    let fs := removeField "block_number" fs
    let fs := removeField "block_timestamp" fs
    let fs := insertField "blockNumber" (.num (u64AsI64 block_number)) fs
    let fs := insertField "blockTimestamp" timestamp fs
    (mapField "cumulativeGasUsed" convI128Field fs).bind fun fs =>
    (mapField "effectiveGasPrice" convI128Field fs).bind fun fs =>
    (mapField "gasUsed" convI128Field fs).bind fun fs =>
    (mapField "transactionIndex" convI64Field fs).bind fun fs =>
    (mapField "logs" convLogsField fs).bind fun fs =>
    (mapField "type" (fun v => .ok (convTypeField v)) fs).bind fun fs =>
    .ok (.obj fs)
  | v => .ok v

/-- Element-wise receipt conversion. -/
def convReceiptList (block_number : Nat) (timestamp : JValue) :
    List JValue → CResult (List JValue)
  | [] => .ok []
  | r :: rest =>
    (convReceipt block_number timestamp r).bind fun r' =>
    (convReceiptList block_number timestamp rest).bind fun rest' =>
    .ok (r' :: rest')

/-- Model of `convert_receipts_hex_to_decimal`.  The receipts payload must be
an array; the block is then fetched a second time (the `refetchResp` call
site) to obtain the timestamp, and every receipt is rewritten.  A failing
re-fetch is an `Err` propagated by `?`; panics propagate as `crashed`. -/
def convert_receipts_hex_to_decimal (refetchResp : Except String JValue)
    (receipts : JValue) (block_number : Nat) : CResult JValue :=
  match receipts with
  | .arr items =>
    match get_block refetchResp with
    | .error e => .err e
    | .ok block_data =>
      match convert_block_hex_to_decimal block_data with
      | .crashed => .crashed
      | .err e => .err e
      | .ok block_conv =>
        let timestamp := jIndexStr block_conv "timestamp"
        match convReceiptList block_number timestamp items with
        | .crashed => .crashed
        | .err e => .err e
        | .ok items' => .ok (.arr items')
  | _ => .err "Receipts data is not an array"

/-! ### The typed records and their serde decoders

These mirror the three `#[derive(Deserialize)]` structs.  `DateTime<Utc>`
fields are kept as epoch seconds (`Int`); `i64`/`i128` fields are `Int` with
the range checked at decode time, exactly where serde would reject an
out-of-range number.  Unknown JSON keys are ignored, a missing or `null` value
of an `Option` field is `none`, and a missing or ill-typed value of any other
field is a deserialization error. -/

structure Block where
  timestamp : Int
  number : Int
  base_fee_per_gas : Option Int
  difficulty : Option Int
  extra_data : Option String
  gas_limit : Option Int
  gas_used : Option Int
  hash : String
  logs_bloom : Option String
  miner : Option String
  mix_hash : Option String
  nonce : Option String
  parent_hash : Option String
  receipts_root : Option String
  sha3_uncles : Option String
  size : Option Int
  state_root : Option String
  total_difficulty : Option Int
  transactions_root : Option String
  uncles : List (Option String)

structure Log where
  address : String
  block_hash : String
  block_number : Int
  data : String
  log_index : String
  removed : Bool
  topics : List String
  transaction_hash : String
  transaction_index : String

structure Receipt where
  block_number : Int
  block_timestamp : Int
  block_hash : String
  contract_address : Option String
  cumulative_gas_used : Int
  effective_gas_price : Int
  from_ : String
  gas_used : Int
  logs : List Log
  logs_bloom : String
  status : String
  to_ : Option String
  transaction_hash : String
  transaction_index : Int
  type_ : String

def decStr : Option JValue → Except String String
  | some (.str s) => .ok s
  | some _ => .error "invalid type"
  | none => .error "missing field"

def decOptStr : Option JValue → Except String (Option String)
  | some (.str s) => .ok (some s)
  | some .null => .ok none
  | none => .ok none
  | some _ => .error "invalid type"

def decI64 : Option JValue → Except String Int
  | some (.num n) =>
    if I64_MIN ≤ n ∧ n ≤ I64_MAX then .ok n else .error "out of range"
  | some _ => .error "invalid type"
  | none => .error "missing field"

def decI128 : Option JValue → Except String Int
  | some (.num n) =>
    if I128_MIN ≤ n ∧ n ≤ I128_MAX then .ok n else .error "out of range"
  | some _ => .error "invalid type"
  | none => .error "missing field"

def decOptI128 : Option JValue → Except String (Option Int)
  | some (.num n) =>
    if I128_MIN ≤ n ∧ n ≤ I128_MAX then .ok (some n)
    else .error "out of range"
  | some .null => .ok none
  | none => .ok none
  | some _ => .error "invalid type"

/-- Deserialization of a `DateTime<Utc>` field (chrono expects the RFC 3339
string that `json!(datetime)` produced, modelled by `JValue.time`; a raw hex
string is not a valid RFC 3339 instant and fails). -/
def decTime : Option JValue → Except String Int
  | some (.time t) => .ok t
  | some _ => .error "invalid type"
  | none => .error "missing field"

def decBool : Option JValue → Except String Bool
  | some (.bool b) => .ok b
  | some _ => .error "invalid type"
  | none => .error "missing field"

def decStrElems : List JValue → Except String (List String)
  | [] => .ok []
  | .str s :: rest => (decStrElems rest).map (s :: ·)
  | _ :: _ => .error "invalid type"

def decStrList : Option JValue → Except String (List String)
  | some (.arr xs) => decStrElems xs
  | some _ => .error "invalid type"
  | none => .error "missing field"

def decOptStrElems : List JValue → Except String (List (Option String))
  | [] => .ok []
  | .str s :: rest => (decOptStrElems rest).map (some s :: ·)
  | .null :: rest => (decOptStrElems rest).map (none :: ·)
  | _ :: _ => .error "invalid type"

def decOptStrList : Option JValue → Except String (List (Option String))
  | some (.arr xs) => decOptStrElems xs
  | some _ => .error "invalid type"
  | none => .error "missing field"

/-- Model of `serde_json::from_value::<Block>`. -/
def blockFromJson (v : JValue) : Except String Block :=
  match v with
  | .obj fs => do
    let timestamp ← decTime (jLookup fs "timestamp")
    let number ← decI64 (jLookup fs "number")
    let base_fee_per_gas ← decOptI128 (jLookup fs "baseFeePerGas")
    let difficulty ← decOptI128 (jLookup fs "difficulty")
    let extra_data ← decOptStr (jLookup fs "extraData")
    let gas_limit ← decOptI128 (jLookup fs "gasLimit")
    let gas_used ← decOptI128 (jLookup fs "gasUsed")
    let hash ← decStr (jLookup fs "hash")
    let logs_bloom ← decOptStr (jLookup fs "logsBloom")
    let miner ← decOptStr (jLookup fs "miner")
    let mix_hash ← decOptStr (jLookup fs "mixHash")
    let nonce ← decOptStr (jLookup fs "nonce")
    let parent_hash ← decOptStr (jLookup fs "parentHash")
    let receipts_root ← decOptStr (jLookup fs "receiptsRoot")
    let sha3_uncles ← decOptStr (jLookup fs "sha3Uncles")
    let size ← decOptI128 (jLookup fs "size")
    let state_root ← decOptStr (jLookup fs "stateRoot")
    let total_difficulty ← decOptI128 (jLookup fs "totalDifficulty")
    let transactions_root ← decOptStr (jLookup fs "transactionsRoot")
    let uncles ← decOptStrList (jLookup fs "uncles")
    pure ⟨timestamp, number, base_fee_per_gas, difficulty, extra_data,
      gas_limit, gas_used, hash, logs_bloom, miner, mix_hash, nonce,
      parent_hash, receipts_root, sha3_uncles, size, state_root,
      total_difficulty, transactions_root, uncles⟩
  | _ => .error "invalid type"

/-- Model of deserializing one `Log`. -/
def logFromJson (v : JValue) : Except String Log :=
  match v with
  | .obj fs => do
    let address ← decStr (jLookup fs "address")
    let block_hash ← decStr (jLookup fs "blockHash")
    let block_number ← decI64 (jLookup fs "blockNumber")
    let data ← decStr (jLookup fs "data")
    let log_index ← decStr (jLookup fs "logIndex")
    let removed ← decBool (jLookup fs "removed")
    let topics ← decStrList (jLookup fs "topics")
    let transaction_hash ← decStr (jLookup fs "transactionHash")
    let transaction_index ← decStr (jLookup fs "transactionIndex")
    pure ⟨address, block_hash, block_number, data, log_index, removed,
      topics, transaction_hash, transaction_index⟩
  | _ => .error "invalid type"

def logListFromJson : List JValue → Except String (List Log)
  | [] => .ok []
  | v :: rest => do
    let l ← logFromJson v
    let ls ← logListFromJson rest
    pure (l :: ls)

def decLogs : Option JValue → Except String (List Log)
  | some (.arr xs) => logListFromJson xs
  | some _ => .error "invalid type"
  | none => .error "missing field"

/-- Model of deserializing one `Receipt`. -/
def receiptFromJson (v : JValue) : Except String Receipt :=
  match v with
  | .obj fs => do
    let block_number ← decI64 (jLookup fs "blockNumber")
    let block_timestamp ← decTime (jLookup fs "blockTimestamp")
    let block_hash ← decStr (jLookup fs "blockHash")
    let contract_address ← decOptStr (jLookup fs "contractAddress")
    let cumulative_gas_used ← decI128 (jLookup fs "cumulativeGasUsed")
    let effective_gas_price ← decI128 (jLookup fs "effectiveGasPrice")
    let from_ ← decStr (jLookup fs "from")
    let gas_used ← decI128 (jLookup fs "gasUsed")
    let logs ← decLogs (jLookup fs "logs")
    let logs_bloom ← decStr (jLookup fs "logsBloom")
    let status ← decStr (jLookup fs "status")
    let to_ ← decOptStr (jLookup fs "to")
    let transaction_hash ← decStr (jLookup fs "transactionHash")
    let transaction_index ← decI64 (jLookup fs "transactionIndex")
    let type_ ← decStr (jLookup fs "type")
    pure ⟨block_number, block_timestamp, block_hash, contract_address,
      cumulative_gas_used, effective_gas_price, from_, gas_used, logs,
      logs_bloom, status, to_, transaction_hash, transaction_index, type_⟩
  | _ => .error "invalid type"

def receiptListFromJson : List JValue → Except String (List Receipt)
  | [] => .ok []
  | v :: rest => do
    let r ← receiptFromJson v
    let rs ← receiptListFromJson rest
    pure (r :: rs)

/-- Model of `serde_json::from_value::<Vec<Receipt>>`. -/
def receiptsFromJson (v : JValue) : Except String (List Receipt) :=
  match v with
  | .arr xs => receiptListFromJson xs
  | _ => .error "invalid type"

/-! ### The orchestrator (`process_blocks`) -/

/-- Network environment of one run: for each height, the decoded JSON body (or
transport/JSON error) returned at each of the three call sites of the source:
the block fetch of the processing loop, the receipts fetch, and the block
re-fetch inside `convert_receipts_hex_to_decimal`.  The three slots are
separate because they are distinct network calls whose answers need not
agree. -/
structure RpcEnv where
  blockResp : Nat → Except String JValue
  receiptsResp : Nat → Except String JValue
  refetchResp : Nat → Except String JValue

/-- Observable actions of the loop, in program order.  Each `write` on a
ClickHouse inserter appends one event.  The database schema created by
`Indexer::new` has a transactions table, so a transactions write is
representable, but the pipeline never performs one. -/
inductive Ev where
  | blockFetch : Nat → Bool → Ev
  | blockWrite : Block → Ev
  | transactionWrite : JValue → Ev
  | receiptsFetch : Nat → Bool → Ev
  | receiptWrite : Receipt → Ev

/-- Conditions that end the whole run early: a panic, or the `?` on
`serde_json::from_value::<Block>` in the loop body. -/
inductive AbortCause where
  | crashed : AbortCause
  | blockDecodeFailed : Nat → String → AbortCause

/-- Body of one iteration of the processing loop: fetch the block (a failure
skips the height); convert and deserialize it (a deserialization failure is
propagated by `?` and aborts the run); write it; fetch, convert, deserialize
and write the receipts (every receipts-side error only skips the rest of the
height). -/
def processHeight (env : RpcEnv) (block_number : Nat) :
    List Ev × Option AbortCause :=
  match get_block (env.blockResp block_number) with
  | .error _ => ([.blockFetch block_number false], none)
  | .ok block_data =>
    match convert_block_hex_to_decimal block_data with
    | .crashed => ([.blockFetch block_number true], some .crashed)
    | .err e =>
      ([.blockFetch block_number true],
        some (.blockDecodeFailed block_number e))
    | .ok conv =>
      match blockFromJson conv with
      | .error e =>
        ([.blockFetch block_number true],
          some (.blockDecodeFailed block_number e))
      | .ok block =>
        let evs := [Ev.blockFetch block_number true, Ev.blockWrite block]
        match get_block_receipts (env.receiptsResp block_number) with
        | .error _ => (evs ++ [.receiptsFetch block_number false], none)
        | .ok receipts_data =>
          let evs := evs ++ [Ev.receiptsFetch block_number true]
          match
            convert_receipts_hex_to_decimal (env.refetchResp block_number)
              receipts_data block_number with
          | .crashed => (evs, some .crashed)
          | .err _ => (evs, none)
          | .ok rconv =>
            match receiptsFromJson rconv with
            | .error _ => (evs, none)
            | .ok receipts => (evs ++ receipts.map Ev.receiptWrite, none)

/-- The `for block_number in start..start + count` loop: strictly sequential
heights; an abort stops the iteration, anything else advances. -/
def processLoop (env : RpcEnv) (block_number : Nat) :
    Nat → List Ev × Option AbortCause
  | 0 => ([], none)
  | Nat.succ rest =>
    match processHeight env block_number with
    | (evs, some a) => (evs, some a)
    | (evs, none) =>
      let (evs2, ab) := processLoop env (block_number + 1) rest
      (evs ++ evs2, ab)

/-- End-of-run aggregate counts, as logged by the final
`info!(blocks_inserted, receipts_inserted, ..)`. -/
structure RunStats where
  blocks_inserted : Nat
  receipts_inserted : Nat

def isBlockWriteEv : Ev → Bool
  | .blockWrite _ => true
  | _ => false

def isReceiptWriteEv : Ev → Bool
  | .receiptWrite _ => true
  | _ => false

def isTransactionWriteEv : Ev → Bool
  | .transactionWrite _ => true
  | _ => false

def countBlockWrites (evs : List Ev) : Nat := (evs.filter isBlockWriteEv).length

def countReceiptWrites (evs : List Ev) : Nat :=
  (evs.filter isReceiptWriteEv).length

def countTransactionWrites (evs : List Ev) : Nat :=
  (evs.filter isTransactionWriteEv).length

/-- Model of `process_blocks`: run the loop; on normal completion the two
inserters are ended and the stats report every row written. -/
def process_blocks (env : RpcEnv) (start count : Nat) :
    List Ev × Except AbortCause RunStats :=
  match processLoop env start count with
  | (evs, some a) => (evs, .error a)
  | (evs, none) => (evs, .ok ⟨countBlockWrites evs, countReceiptWrites evs⟩)

/-! ### Observation helpers -/

/-- Number of embedded full transactions carried by a raw block payload. -/
def rawTxCount (v : JValue) : Nat :=
  match jGet v "transactions" with
  | some (.arr txs) => txs.length
  | _ => 0

/-- Receipt statuses surviving the full conversion-then-deserialization path:
`none` when either stage fails. -/
def decodedStatuses (refetchResp : Except String JValue) (receipts : JValue)
    (block_number : Nat) : Option (List String) :=
  match convert_receipts_hex_to_decimal refetchResp receipts block_number with
  | .ok v =>
    match receiptsFromJson v with
    | .ok rs => some (rs.map Receipt.status)
    | .error _ => none
  | _ => none

/-- Timestamps of the blocks written during a run, in write order. -/
def writtenBlockTimes (evs : List Ev) : List Int :=
  evs.filterMap fun e =>
    match e with
    | .blockWrite b => some b.timestamp
    | _ => none

/-- Timestamps carried by the receipts written during a run, in write
order. -/
def writtenReceiptTimes (evs : List Ev) : List Int :=
  evs.filterMap fun e =>
    match e with
    | .receiptWrite r => some r.block_timestamp
    | _ => none

/-- Numeric tag of an event kind, used to talk about trace shapes: 0 block
fetch, 1 block write, 2 transaction write, 3 receipts fetch, 4 receipt
write. -/
def evKind : Ev → Nat
  | .blockFetch _ _ => 0
  | .blockWrite _ => 1
  | .transactionWrite _ => 2
  | .receiptsFetch _ _ => 3
  | .receiptWrite _ => 4

/-! ### Specification-side definitions for the hex-decoding claims

These two follow the words of the spec (the value of a hex numeral as the
integer value of its digits, most significant first), to be compared with the
parser embedded from the source. -/

/-- Spec value of one lowercase hex digit. -/
def hexDigitSpec (c : Char) : Nat :=
  if '0' ≤ c ∧ c ≤ '9' then c.toNat - '0'.toNat else c.toNat - 'a'.toNat + 10

/-- Whether a character matches the class `[0-9a-f]` of the spec. -/
def isLowerHexDigit (c : Char) : Prop :=
  ('0' ≤ c ∧ c ≤ '9') ∨ ('a' ≤ c ∧ c ≤ 'f')

instance (c : Char) : Decidable (isLowerHexDigit c) := by
  unfold isLowerHexDigit; infer_instance

/-- Spec value of a hex digit string, most significant digit first. -/
def hexValMSB : List Char → Nat
  | [] => 0
  | c :: rest => hexDigitSpec c * 16 ^ rest.length + hexValMSB rest

/-! ### Concrete fixtures -/

/-- Wrap a payload in a JSON-RPC 2.0 response envelope. -/
def respOf (v : JValue) : JValue :=
  .obj [("jsonrpc", .str "2.0"), ("id", .num 1), ("result", v)]

/-- Raw block at height 1 with one embedded full transaction. -/
def rawBlockA : JValue :=
  .obj [("number", .str "0x1"), ("hash", .str "0xabc"),
    ("timestamp", .str "0x60000000"), ("uncles", .arr []),
    ("transactions", .arr [.obj [("hash", .str "0xt1")]])]

/-- Raw block at height 3. -/
def rawBlockB : JValue :=
  .obj [("number", .str "0x3"), ("hash", .str "0xdef"),
    ("timestamp", .str "0x60000001"), ("uncles", .arr [])]

/-- Raw block whose timestamp decodes to second 1. -/
def rawBlockT1 : JValue :=
  .obj [("number", .str "0x1"), ("hash", .str "0xabc"),
    ("timestamp", .str "0x1"), ("uncles", .arr [])]

/-- Raw block identical to `rawBlockT1` except that its timestamp decodes to
second 2 — what an inconsistent node can return on a later call. -/
def rawBlockT2 : JValue :=
  .obj [("number", .str "0x1"), ("hash", .str "0xabc"),
    ("timestamp", .str "0x2"), ("uncles", .arr [])]

/-- Raw block lacking the required `hash` field: fetch succeeds, schema
validation of the converted value fails. -/
def rawBlockNoHash : JValue :=
  .obj [("number", .str "0x1"), ("timestamp", .str "0x1"),
    ("uncles", .arr [])]

/-- Raw receipt with status `0x1`. -/
def rawReceipt1 : JValue :=
  .obj [("blockHash", .str "0xabc"), ("cumulativeGasUsed", .str "0x10"),
    ("effectiveGasPrice", .str "0x5"), ("from", .str "0xsender"),
    ("gasUsed", .str "0x8"), ("logs", .arr []),
    ("logsBloom", .str "0xbloom"), ("status", .str "0x1"),
    ("transactionHash", .str "0xt1"), ("transactionIndex", .str "0x0"),
    ("type", .str "0x2")]

/-- Raw receipt with status `0x2` (a value other than 0 and 1). -/
def rawReceipt2 : JValue :=
  .obj [("blockHash", .str "0xabc"), ("cumulativeGasUsed", .str "0x20"),
    ("effectiveGasPrice", .str "0x5"), ("from", .str "0xsender"),
    ("gasUsed", .str "0x8"), ("logs", .arr []),
    ("logsBloom", .str "0xbloom"), ("status", .str "0x2"),
    ("transactionHash", .str "0xt2"), ("transactionIndex", .str "0x1"),
    ("type", .str "0x2")]

/-- The `Block` record that `rawBlockA` converts and deserializes to. -/
def blockRecA : Block :=
  ⟨1610612736, 1, none, none, none, none, none, "0xabc", none, none, none,
    none, none, none, none, none, none, none, none, []⟩

/-- The `Block` record that `rawBlockB` converts and deserializes to. -/
def blockRecB : Block :=
  ⟨1610612737, 3, none, none, none, none, none, "0xdef", none, none, none,
    none, none, none, none, none, none, none, none, []⟩

/-- The `Receipt` record that `rawReceipt1` converts and deserializes to at
height 1 with block timestamp 1610612736. -/
def receiptRecA : Receipt :=
  ⟨1, 1610612736, "0xabc", none, 16, 5, "0xsender", 8, [], "0xbloom",
    "0x1", none, "0xt1", 0, "2"⟩

/-- Environment where height 1 fully succeeds and every call at every other
height fails with a transport error; the node answers consistently. -/
def envA : RpcEnv where
  blockResp := fun n => if n = 1 then .ok (respOf rawBlockA) else .error "down"
  receiptsResp := fun n =>
    if n = 1 then .ok (respOf (.arr [rawReceipt1])) else .error "down"
  refetchResp := fun n => if n = 1 then .ok (respOf rawBlockA) else .error "down"

/-- Environment where height 1 returns a block that fails schema validation
(no `hash`) while height 2 would succeed. -/
def envC4 : RpcEnv where
  blockResp := fun n =>
    if n = 1 then .ok (respOf rawBlockNoHash)
    else if n = 2 then .ok (respOf rawBlockB) else .error "down"
  receiptsResp := fun _ => .error "down"
  refetchResp := fun _ => .error "down"

/-- Environment for a 3-height range where only the middle block fetch fails
(transport error) and the receipts endpoint is down throughout. -/
def envC5 : RpcEnv where
  blockResp := fun n =>
    if n = 1 then .ok (respOf rawBlockA)
    else if n = 3 then .ok (respOf rawBlockB) else .error "boom"
  receiptsResp := fun _ => .error "down"
  refetchResp := fun _ => .error "down"

/-- Environment where the re-fetch of block 1 inside the receipts conversion
returns a block with a different timestamp than the first fetch. -/
def envC6 : RpcEnv where
  blockResp := fun n => if n = 1 then .ok (respOf rawBlockT1) else .error "down"
  receiptsResp := fun n =>
    if n = 1 then .ok (respOf (.arr [rawReceipt1])) else .error "down"
  refetchResp := fun n => if n = 1 then .ok (respOf rawBlockT2) else .error "down"

/-- Environment where everything at height 1 succeeds except the block
re-fetch inside the receipts conversion, which hits a transport error. -/
def envC10 : RpcEnv where
  blockResp := fun n => if n = 1 then .ok (respOf rawBlockA) else .error "down"
  receiptsResp := fun n =>
    if n = 1 then .ok (respOf (.arr [rawReceipt1])) else .error "down"
  refetchResp := fun _ => .error "flaky"

/-- Hex numeral of 32 `f` digits: it matches `0x[0-9a-f]+` but its value
exceeds the `i128` range. -/
def bigHex : String := "0xffffffffffffffffffffffffffffffff"

/-! ## Lemma layer -/

theorem cbind_ok {α β : Type} {x : CResult α} {f : α → CResult β} {b : β}
    (h : x.bind f = .ok b) : ∃ a, x = .ok a ∧ f a = .ok b := by
  cases x with
  | ok a => exact ⟨a, rfl, h⟩
  | err e => exact absurd h (by simp [CResult.bind])
  | crashed => exact absurd h (by simp [CResult.bind])

theorem ebind_ok {α β : Type} {x : Except String α} {f : α → Except String β}
    {b : β} (h : (x >>= f) = .ok b) : ∃ a, x = .ok a ∧ f a = .ok b := by
  cases x with
  | ok a => exact ⟨a, rfl, h⟩
  | error e => exact absurd h (by simp [Bind.bind, Except.bind])

theorem mapField_lookup_ne (key : String) (f : JValue → CResult JValue) :
    ∀ (fs out : JObj), mapField key f fs = .ok out →
      ∀ k, k ≠ key → jLookup out k = jLookup fs k := by
  intro fs
  induction fs with
  | nil =>
    intro out h k _
    simp [mapField] at h
    subst h
    rfl
  | cons p rest ih =>
    obtain ⟨k', v⟩ := p
    intro out h k hk
    by_cases hkey : k' = key
    · simp only [mapField, if_pos hkey] at h
      cases hfv : f v with
      | ok v' =>
        rw [hfv] at h
        cases h
        simp [jLookup, hkey, Ne.symm hk]
      | err e => rw [hfv] at h; exact absurd h (by simp)
      | crashed => rw [hfv] at h; exact absurd h (by simp)
    · simp only [mapField, if_neg hkey] at h
      cases hrest : mapField key f rest with
      | ok rest' =>
        rw [hrest] at h
        cases h
        by_cases hkk : k' = k
        · simp [jLookup, hkk]
        · simp [jLookup, hkk, ih rest' hrest k hk]
      | err e => rw [hrest] at h; exact absurd h (by simp)
      | crashed => rw [hrest] at h; exact absurd h (by simp)

theorem mapField_isSome (key : String) (f : JValue → CResult JValue) :
    ∀ (fs out : JObj), mapField key f fs = .ok out →
      ∀ k, (jLookup out k).isSome = (jLookup fs k).isSome := by
  intro fs
  induction fs with
  | nil =>
    intro out h k
    simp [mapField] at h
    subst h
    rfl
  | cons p rest ih =>
    obtain ⟨k', v⟩ := p
    intro out h k
    by_cases hkey : k' = key
    · simp only [mapField, if_pos hkey] at h
      cases hfv : f v with
      | ok v' =>
        rw [hfv] at h
        cases h
        by_cases hkk : k' = k <;> simp [jLookup, hkk]
      | err e => rw [hfv] at h; exact absurd h (by simp)
      | crashed => rw [hfv] at h; exact absurd h (by simp)
    · simp only [mapField, if_neg hkey] at h
      cases hrest : mapField key f rest with
      | ok rest' =>
        rw [hrest] at h
        cases h
        by_cases hkk : k' = k
        · simp [jLookup, hkk]
        · simp [jLookup, hkk, ih rest' hrest k]
      | err e => rw [hrest] at h; exact absurd h (by simp)
      | crashed => rw [hrest] at h; exact absurd h (by simp)

theorem removeField_lookup_ne (key : String) :
    ∀ (fs : JObj) (k : String), k ≠ key →
      jLookup (removeField key fs) k = jLookup fs k := by
  intro fs
  induction fs with
  | nil => intro k _; rfl
  | cons p rest ih =>
    obtain ⟨k', v⟩ := p
    intro k hk
    by_cases hkey : k' = key
    · rw [removeField, if_pos hkey]
      simp only [jLookup]
      rw [if_neg (fun h => hk (h.symm.trans hkey))]
    · rw [removeField, if_neg hkey]
      by_cases hkk : k' = k
      · rw [jLookup, if_pos hkk, jLookup, if_pos hkk]
      · rw [jLookup, if_neg hkk, jLookup, if_neg hkk]
        exact ih k hk

theorem insertField_lookup_ne (key : String) (v : JValue) :
    ∀ (fs : JObj) (k : String), k ≠ key →
      jLookup (insertField key v fs) k = jLookup fs k := by
  intro fs
  induction fs with
  | nil =>
    intro k hk
    rw [insertField]
    simp only [jLookup]
    rw [if_neg (fun h => hk h.symm)]
  | cons p rest ih =>
    obtain ⟨k', v'⟩ := p
    intro k hk
    by_cases hkey : k' = key
    · rw [insertField, if_pos hkey]
      have hkk : ¬k' = k := fun h => hk (h.symm.trans hkey)
      rw [jLookup, if_neg hkk, jLookup, if_neg hkk]
    · rw [insertField, if_neg hkey]
      by_cases hkk : k' = k
      · rw [jLookup, if_pos hkk, jLookup, if_pos hkk]
      · rw [jLookup, if_neg hkk, jLookup, if_neg hkk]
        exact ih k hk

theorem insertField_lookup_self (key : String) (v : JValue) :
    ∀ fs : JObj, jLookup (insertField key v fs) key = some v := by
  intro fs
  induction fs with
  | nil => rw [insertField, jLookup, if_pos rfl]
  | cons p rest ih =>
    obtain ⟨k', v'⟩ := p
    by_cases hkey : k' = key
    · rw [insertField, if_pos hkey, jLookup, if_pos hkey]
    · rw [insertField, if_neg hkey, jLookup, if_neg hkey]
      exact ih

theorem countBlockWrites_append (a b : List Ev) :
    countBlockWrites (a ++ b) = countBlockWrites a + countBlockWrites b := by
  simp [countBlockWrites, List.filter_append]

theorem countReceiptWrites_append (a b : List Ev) :
    countReceiptWrites (a ++ b) =
      countReceiptWrites a + countReceiptWrites b := by
  simp [countReceiptWrites, List.filter_append]

theorem countTransactionWrites_append (a b : List Ev) :
    countTransactionWrites (a ++ b) =
      countTransactionWrites a + countTransactionWrites b := by
  simp [countTransactionWrites, List.filter_append]

theorem countTransactionWrites_map_receiptWrite (rs : List Receipt) :
    countTransactionWrites (rs.map Ev.receiptWrite) = 0 := by
  induction rs with
  | nil => rfl
  | cons r rest ih =>
    simp [countTransactionWrites, List.filter, isTransactionWriteEv]

theorem countReceiptWrites_map_receiptWrite (rs : List Receipt) :
    countReceiptWrites (rs.map Ev.receiptWrite) = rs.length := by
  induction rs with
  | nil => rfl
  | cons r rest ih =>
    simpa [countReceiptWrites, List.filter, isReceiptWriteEv] using ih

theorem countBlockWrites_map_receiptWrite (rs : List Receipt) :
    countBlockWrites (rs.map Ev.receiptWrite) = 0 := by
  induction rs with
  | nil => rfl
  | cons r rest ih =>
    simp [countBlockWrites, List.filter, isBlockWriteEv]

theorem decTime_ok {o : Option JValue} {t : Int} (h : decTime o = .ok t) :
    o = some (.time t) := by
  match o with
  | some (.time t') => cases h; rfl
  | some .null | some (.bool _) | some (.num _) | some (.str _)
  | some (.arr _) | some (.obj _) | none => exact absurd h (by simp [decTime])

theorem decStr_ok {o : Option JValue} {s : String} (h : decStr o = .ok s) :
    o = some (.str s) := by
  match o with
  | some (.str s') => cases h; rfl
  | some .null | some (.bool _) | some (.num _) | some (.time _)
  | some (.arr _) | some (.obj _) | none => exact absurd h (by simp [decStr])

/-- Deserializing a `Block` successfully pins the shape of the `timestamp`
field of the JSON source: it is the serialized instant that becomes the
record timestamp. -/
theorem blockFromJson_timestamp {fs : JObj} {b : Block}
    (h : blockFromJson (.obj fs) = .ok b) :
    jLookup fs "timestamp" = some (.time b.timestamp) := by
  simp only [blockFromJson] at h
  obtain ⟨t, ht, h⟩ := ebind_ok h
  obtain ⟨_, _, h⟩ := ebind_ok h
  obtain ⟨_, _, h⟩ := ebind_ok h
  obtain ⟨_, _, h⟩ := ebind_ok h
  obtain ⟨_, _, h⟩ := ebind_ok h
  obtain ⟨_, _, h⟩ := ebind_ok h
  obtain ⟨_, _, h⟩ := ebind_ok h
  obtain ⟨_, _, h⟩ := ebind_ok h
  obtain ⟨_, _, h⟩ := ebind_ok h
  obtain ⟨_, _, h⟩ := ebind_ok h
  obtain ⟨_, _, h⟩ := ebind_ok h
  obtain ⟨_, _, h⟩ := ebind_ok h
  obtain ⟨_, _, h⟩ := ebind_ok h
  obtain ⟨_, _, h⟩ := ebind_ok h
  obtain ⟨_, _, h⟩ := ebind_ok h
  obtain ⟨_, _, h⟩ := ebind_ok h
  obtain ⟨_, _, h⟩ := ebind_ok h
  obtain ⟨_, _, h⟩ := ebind_ok h
  obtain ⟨_, _, h⟩ := ebind_ok h
  obtain ⟨_, _, h⟩ := ebind_ok h
  cases h
  exact decTime_ok ht

/-- Deserializing a `Receipt` successfully pins the `blockTimestamp` and
`status` fields of the JSON source. -/
theorem receiptFromJson_fields {fs : JObj} {r : Receipt}
    (h : receiptFromJson (.obj fs) = .ok r) :
    jLookup fs "blockTimestamp" = some (.time r.block_timestamp) ∧
      jLookup fs "status" = some (.str r.status) := by
  simp only [receiptFromJson] at h
  obtain ⟨_, _, h⟩ := ebind_ok h
  obtain ⟨t, ht, h⟩ := ebind_ok h
  obtain ⟨_, _, h⟩ := ebind_ok h
  obtain ⟨_, _, h⟩ := ebind_ok h
  obtain ⟨_, _, h⟩ := ebind_ok h
  obtain ⟨_, _, h⟩ := ebind_ok h
  obtain ⟨_, _, h⟩ := ebind_ok h
  obtain ⟨_, _, h⟩ := ebind_ok h
  obtain ⟨_, _, h⟩ := ebind_ok h
  obtain ⟨_, _, h⟩ := ebind_ok h
  obtain ⟨st, hst, h⟩ := ebind_ok h
  obtain ⟨_, _, h⟩ := ebind_ok h
  obtain ⟨_, _, h⟩ := ebind_ok h
  obtain ⟨_, _, h⟩ := ebind_ok h
  obtain ⟨_, _, h⟩ := ebind_ok h
  cases h
  exact ⟨decTime_ok ht, decStr_ok hst⟩

/-- Keys rewritten by `convert_block_hex_to_decimal`, in source order. -/
def blockConvKeys : List String :=
  ["difficulty", "baseFeePerGas", "gasLimit", "gasUsed", "number", "size",
    "totalDifficulty", "timestamp"]

/-- Keys the receipt conversion removes, injects or rewrites. -/
def receiptTouchedKeys : List String :=
  ["block_number", "block_timestamp", "blockNumber", "blockTimestamp",
    "cumulativeGasUsed", "effectiveGasPrice", "gasUsed", "transactionIndex",
    "logs", "type"]

/-- Block conversion is a per-key rewrite: every key outside
`blockConvKeys` is looked up to the same value afterwards. -/
theorem convert_block_lookup_ne {fs out : JObj}
    (h : convert_block_hex_to_decimal (.obj fs) = .ok (.obj out)) :
    ∀ k, k ∉ blockConvKeys → jLookup out k = jLookup fs k := by
  intro k hk
  simp only [blockConvKeys, List.mem_cons, List.not_mem_nil, or_false,
    not_or] at hk
  obtain ⟨h1, h2, h3, h4, h5, h6, h7, h8⟩ := hk
  simp only [convert_block_hex_to_decimal] at h
  obtain ⟨f1, e1, h⟩ := cbind_ok h
  obtain ⟨f2, e2, h⟩ := cbind_ok h
  obtain ⟨f3, e3, h⟩ := cbind_ok h
  obtain ⟨f4, e4, h⟩ := cbind_ok h
  obtain ⟨f5, e5, h⟩ := cbind_ok h
  obtain ⟨f6, e6, h⟩ := cbind_ok h
  obtain ⟨f7, e7, h⟩ := cbind_ok h
  obtain ⟨f8, e8, h⟩ := cbind_ok h
  cases h
  calc jLookup out k
      = jLookup f7 k := mapField_lookup_ne _ _ _ _ e8 k h8
    _ = jLookup f6 k := mapField_lookup_ne _ _ _ _ e7 k h7
    _ = jLookup f5 k := mapField_lookup_ne _ _ _ _ e6 k h6
    _ = jLookup f4 k := mapField_lookup_ne _ _ _ _ e5 k h5
    _ = jLookup f3 k := mapField_lookup_ne _ _ _ _ e4 k h4
    _ = jLookup f2 k := mapField_lookup_ne _ _ _ _ e3 k h3
    _ = jLookup f1 k := mapField_lookup_ne _ _ _ _ e2 k h2
    _ = jLookup fs k := mapField_lookup_ne _ _ _ _ e1 k h1

/-- Block conversion never adds or removes a key. -/
theorem convert_block_isSome {fs out : JObj}
    (h : convert_block_hex_to_decimal (.obj fs) = .ok (.obj out)) :
    ∀ k, (jLookup out k).isSome = (jLookup fs k).isSome := by
  intro k
  simp only [convert_block_hex_to_decimal] at h
  obtain ⟨f1, e1, h⟩ := cbind_ok h
  obtain ⟨f2, e2, h⟩ := cbind_ok h
  obtain ⟨f3, e3, h⟩ := cbind_ok h
  obtain ⟨f4, e4, h⟩ := cbind_ok h
  obtain ⟨f5, e5, h⟩ := cbind_ok h
  obtain ⟨f6, e6, h⟩ := cbind_ok h
  obtain ⟨f7, e7, h⟩ := cbind_ok h
  obtain ⟨f8, e8, h⟩ := cbind_ok h
  cases h
  calc (jLookup out k).isSome
      = (jLookup f7 k).isSome := mapField_isSome _ _ _ _ e8 k
    _ = (jLookup f6 k).isSome := mapField_isSome _ _ _ _ e7 k
    _ = (jLookup f5 k).isSome := mapField_isSome _ _ _ _ e6 k
    _ = (jLookup f4 k).isSome := mapField_isSome _ _ _ _ e5 k
    _ = (jLookup f3 k).isSome := mapField_isSome _ _ _ _ e4 k
    _ = (jLookup f2 k).isSome := mapField_isSome _ _ _ _ e3 k
    _ = (jLookup f1 k).isSome := mapField_isSome _ _ _ _ e2 k
    _ = (jLookup fs k).isSome := mapField_isSome _ _ _ _ e1 k

/-- Receipt conversion of an object yields an object carrying the injected
timestamp in `blockTimestamp`. -/
theorem convReceipt_blockTimestamp {bn : Nat} {ts : JValue} {fs out : JObj}
    (h : convReceipt bn ts (.obj fs) = .ok (.obj out)) :
    jLookup out "blockTimestamp" = some ts := by
  simp only [convReceipt] at h
  obtain ⟨f1, e1, h⟩ := cbind_ok h
  obtain ⟨f2, e2, h⟩ := cbind_ok h
  obtain ⟨f3, e3, h⟩ := cbind_ok h
  obtain ⟨f4, e4, h⟩ := cbind_ok h
  obtain ⟨f5, e5, h⟩ := cbind_ok h
  obtain ⟨f6, e6, h⟩ := cbind_ok h
  cases h
  have k1 : ("blockTimestamp" : String) ≠ "cumulativeGasUsed" := by decide
  have k2 : ("blockTimestamp" : String) ≠ "effectiveGasPrice" := by decide
  have k3 : ("blockTimestamp" : String) ≠ "gasUsed" := by decide
  have k4 : ("blockTimestamp" : String) ≠ "transactionIndex" := by decide
  have k5 : ("blockTimestamp" : String) ≠ "logs" := by decide
  have k6 : ("blockTimestamp" : String) ≠ "type" := by decide
  calc jLookup out "blockTimestamp"
      = jLookup f5 "blockTimestamp" := mapField_lookup_ne _ _ _ _ e6 _ k6
    _ = jLookup f4 "blockTimestamp" := mapField_lookup_ne _ _ _ _ e5 _ k5
    _ = jLookup f3 "blockTimestamp" := mapField_lookup_ne _ _ _ _ e4 _ k4
    _ = jLookup f2 "blockTimestamp" := mapField_lookup_ne _ _ _ _ e3 _ k3
    _ = jLookup f1 "blockTimestamp" := mapField_lookup_ne _ _ _ _ e2 _ k2
    _ = some ts := by
        rw [mapField_lookup_ne _ _ _ _ e1 _ k1]
        exact insertField_lookup_self _ _ _

/-- Receipt conversion is a per-key rewrite outside `receiptTouchedKeys`. -/
theorem convReceipt_lookup_ne {bn : Nat} {ts : JValue} {fs out : JObj}
    (h : convReceipt bn ts (.obj fs) = .ok (.obj out)) :
    ∀ k, k ∉ receiptTouchedKeys → jLookup out k = jLookup fs k := by
  intro k hk
  simp only [receiptTouchedKeys, List.mem_cons, List.not_mem_nil, or_false,
    not_or] at hk
  obtain ⟨h1, h2, h3, h4, h5, h6, h7, h8, h9, h10⟩ := hk
  simp only [convReceipt] at h
  obtain ⟨f1, e1, h⟩ := cbind_ok h
  obtain ⟨f2, e2, h⟩ := cbind_ok h
  obtain ⟨f3, e3, h⟩ := cbind_ok h
  obtain ⟨f4, e4, h⟩ := cbind_ok h
  obtain ⟨f5, e5, h⟩ := cbind_ok h
  obtain ⟨f6, e6, h⟩ := cbind_ok h
  cases h
  calc jLookup out k
      = jLookup f5 k := mapField_lookup_ne _ _ _ _ e6 k h10
    _ = jLookup f4 k := mapField_lookup_ne _ _ _ _ e5 k h9
    _ = jLookup f3 k := mapField_lookup_ne _ _ _ _ e4 k h8
    _ = jLookup f2 k := mapField_lookup_ne _ _ _ _ e3 k h7
    _ = jLookup f1 k := mapField_lookup_ne _ _ _ _ e2 k h6
    _ = jLookup fs k := by
        rw [mapField_lookup_ne _ _ _ _ e1 k h5,
          insertField_lookup_ne _ _ _ _ h4, insertField_lookup_ne _ _ _ _ h3,
          removeField_lookup_ne _ _ _ h2, removeField_lookup_ne _ _ _ h1]

/-- Receipt conversion preserves key presence outside the four injected or
removed keys. -/
theorem convReceipt_isSome {bn : Nat} {ts : JValue} {fs out : JObj}
    (h : convReceipt bn ts (.obj fs) = .ok (.obj out)) :
    ∀ k, k ≠ "block_number" → k ≠ "block_timestamp" → k ≠ "blockNumber" →
      k ≠ "blockTimestamp" →
      (jLookup out k).isSome = (jLookup fs k).isSome := by
  intro k h1 h2 h3 h4
  simp only [convReceipt] at h
  obtain ⟨f1, e1, h⟩ := cbind_ok h
  obtain ⟨f2, e2, h⟩ := cbind_ok h
  obtain ⟨f3, e3, h⟩ := cbind_ok h
  obtain ⟨f4, e4, h⟩ := cbind_ok h
  obtain ⟨f5, e5, h⟩ := cbind_ok h
  obtain ⟨f6, e6, h⟩ := cbind_ok h
  cases h
  calc (jLookup out k).isSome
      = (jLookup f5 k).isSome := mapField_isSome _ _ _ _ e6 k
    _ = (jLookup f4 k).isSome := mapField_isSome _ _ _ _ e5 k
    _ = (jLookup f3 k).isSome := mapField_isSome _ _ _ _ e4 k
    _ = (jLookup f2 k).isSome := mapField_isSome _ _ _ _ e3 k
    _ = (jLookup f1 k).isSome := mapField_isSome _ _ _ _ e2 k
    _ = (jLookup fs k).isSome := by
        rw [mapField_isSome _ _ _ _ e1 k,
          insertField_lookup_ne _ _ _ _ h4, insertField_lookup_ne _ _ _ _ h3,
          removeField_lookup_ne _ _ _ h2, removeField_lookup_ne _ _ _ h1]

/-- Only JSON objects deserialize into receipts. -/
theorem receiptFromJson_obj {v : JValue} {r : Receipt}
    (h : receiptFromJson v = .ok r) : ∃ gs, v = .obj gs := by
  match v with
  | .obj gs => exact ⟨gs, rfl⟩
  | .null | .bool _ | .num _ | .str _ | .time _ | .arr _ =>
    exact absurd h (by simp [receiptFromJson])

/-- Every receipt decoded from the output of the receipt conversion carries
the injected timestamp value. -/
theorem convReceiptList_timestamp (bn : Nat) (ts : JValue) :
    ∀ (items outs : List JValue) (rs : List Receipt),
      convReceiptList bn ts items = .ok outs →
      receiptListFromJson outs = .ok rs →
      ∀ r ∈ rs, JValue.time r.block_timestamp = ts := by
  intro items
  induction items with
  | nil =>
    intro outs rs hconv hdec r hr
    simp only [convReceiptList] at hconv
    cases hconv
    simp only [receiptListFromJson] at hdec
    cases hdec
    exact absurd hr (List.not_mem_nil r)
  | cons item rest ih =>
    intro outs rs hconv hdec r hr
    simp only [convReceiptList] at hconv
    obtain ⟨o, ho, hconv⟩ := cbind_ok hconv
    obtain ⟨os, hos, hconv⟩ := cbind_ok hconv
    cases hconv
    simp only [receiptListFromJson] at hdec
    obtain ⟨r0, hr0, hdec⟩ := ebind_ok hdec
    obtain ⟨rs0, hrs0, hdec⟩ := ebind_ok hdec
    cases hdec
    rcases List.mem_cons.mp hr with hhead | htail
    · subst hhead
      obtain ⟨gs, rfl⟩ := receiptFromJson_obj hr0
      match item, ho with
      | .obj fs, ho =>
        have hts := convReceipt_blockTimestamp ho
        rw [(receiptFromJson_fields hr0).1] at hts
        exact Option.some.inj hts
      | .null, ho | .bool _, ho | .num _, ho | .str _, ho | .time _, ho
      | .arr _, ho =>
        exact absurd ho (by simp [convReceipt])
    · exact ih os rs0 hos hrs0 r htail

/-! ### Orchestrator case lemmas -/

theorem filter_txEv_map_receiptWrite (rs : List Receipt) :
    List.filter isTransactionWriteEv (rs.map Ev.receiptWrite) = [] := by
  induction rs with
  | nil => rfl
  | cons r rest ih => simp [List.filter, isTransactionWriteEv, ih]

theorem processHeight_fetch_err {env : RpcEnv} {n : Nat} {e : String}
    (h : get_block (env.blockResp n) = .error e) :
    processHeight env n = ([.blockFetch n false], none) := by
  simp [processHeight, h]

theorem processHeight_decode_err {env : RpcEnv} {n : Nat} {v conv : JValue}
    {e : String} (hf : get_block (env.blockResp n) = .ok v)
    (hc : convert_block_hex_to_decimal v = .ok conv)
    (hd : blockFromJson conv = .error e) :
    processHeight env n =
      ([.blockFetch n true], some (.blockDecodeFailed n e)) := by
  simp [processHeight, hf, hc, hd]

theorem processHeight_receipts_fetch_err {env : RpcEnv} {n : Nat}
    {v conv : JValue} {b : Block} {e : String}
    (hf : get_block (env.blockResp n) = .ok v)
    (hc : convert_block_hex_to_decimal v = .ok conv)
    (hd : blockFromJson conv = .ok b)
    (hr : get_block_receipts (env.receiptsResp n) = .error e) :
    processHeight env n =
      ([.blockFetch n true, .blockWrite b, .receiptsFetch n false], none) := by
  simp [processHeight, hf, hc, hd, hr]

theorem processHeight_receipts_conv_err {env : RpcEnv} {n : Nat}
    {v conv rv : JValue} {b : Block} {e : String}
    (hf : get_block (env.blockResp n) = .ok v)
    (hc : convert_block_hex_to_decimal v = .ok conv)
    (hd : blockFromJson conv = .ok b)
    (hr : get_block_receipts (env.receiptsResp n) = .ok rv)
    (hcr : convert_receipts_hex_to_decimal (env.refetchResp n) rv n = .err e) :
    processHeight env n =
      ([.blockFetch n true, .blockWrite b, .receiptsFetch n true], none) := by
  simp [processHeight, hf, hc, hd, hr, hcr]

theorem processHeight_receipts_decode_err {env : RpcEnv} {n : Nat}
    {v conv rv rconv : JValue} {b : Block} {e : String}
    (hf : get_block (env.blockResp n) = .ok v)
    (hc : convert_block_hex_to_decimal v = .ok conv)
    (hd : blockFromJson conv = .ok b)
    (hr : get_block_receipts (env.receiptsResp n) = .ok rv)
    (hcr : convert_receipts_hex_to_decimal (env.refetchResp n) rv n = .ok rconv)
    (hrd : receiptsFromJson rconv = .error e) :
    processHeight env n =
      ([.blockFetch n true, .blockWrite b, .receiptsFetch n true], none) := by
  simp [processHeight, hf, hc, hd, hr, hcr, hrd]

theorem processHeight_ok {env : RpcEnv} {n : Nat} {v conv rv rconv : JValue}
    {b : Block} {rs : List Receipt}
    (hf : get_block (env.blockResp n) = .ok v)
    (hc : convert_block_hex_to_decimal v = .ok conv)
    (hd : blockFromJson conv = .ok b)
    (hr : get_block_receipts (env.receiptsResp n) = .ok rv)
    (hcr : convert_receipts_hex_to_decimal (env.refetchResp n) rv n = .ok rconv)
    (hrd : receiptsFromJson rconv = .ok rs) :
    processHeight env n =
      ([.blockFetch n true, .blockWrite b, .receiptsFetch n true]
        ++ rs.map Ev.receiptWrite, none) := by
  simp [processHeight, hf, hc, hd, hr, hcr, hrd]

theorem processLoop_zero (env : RpcEnv) (n : Nat) :
    processLoop env n 0 = ([], none) := rfl

theorem processLoop_succ_cont {env : RpcEnv} {n rest : Nat} {evs : List Ev}
    (h : processHeight env n = (evs, none)) :
    processLoop env n (rest + 1) =
      (evs ++ (processLoop env (n + 1) rest).1,
        (processLoop env (n + 1) rest).2) := by
  cases hp : processLoop env (n + 1) rest with
  | mk evs2 ab => simp [processLoop, h, hp]

theorem processLoop_succ_abort {env : RpcEnv} {n rest : Nat} {evs : List Ev}
    {a : AbortCause} (h : processHeight env n = (evs, some a)) :
    processLoop env n (rest + 1) = (evs, some a) := by
  simp [processLoop, h]

theorem countTransactionWrites_processHeight (env : RpcEnv) (n : Nat) :
    countTransactionWrites (processHeight env n).1 = 0 := by
  unfold processHeight
  repeat' split
  all_goals
    simp [countTransactionWrites, List.filter, isTransactionWriteEv,
      List.filter_append, filter_txEv_map_receiptWrite]

theorem countTransactionWrites_processLoop (env : RpcEnv) :
    ∀ (count n : Nat),
      countTransactionWrites (processLoop env n count).1 = 0 := by
  intro count
  induction count with
  | zero => intro n; rfl
  | succ rest ih =>
    intro n
    have hph := countTransactionWrites_processHeight env n
    cases hp : processHeight env n with
    | mk evs ab =>
      rw [hp] at hph
      cases ab with
      | some a => rw [processLoop_succ_abort hp]; exact hph
      | none =>
        rw [processLoop_succ_cont hp, countTransactionWrites_append, hph,
          ih (n + 1)]

theorem process_blocks_ok {env : RpcEnv} {start count : Nat} {evs : List Ev}
    (h : processLoop env start count = (evs, none)) :
    process_blocks env start count =
      (evs, .ok ⟨countBlockWrites evs, countReceiptWrites evs⟩) := by
  simp [process_blocks, h]

theorem process_blocks_abort {env : RpcEnv} {start count : Nat}
    {evs : List Ev} {a : AbortCause}
    (h : processLoop env start count = (evs, some a)) :
    process_blocks env start count = (evs, .error a) := by
  simp [process_blocks, h]

theorem blockFromJson_obj {v : JValue} {b : Block}
    (h : blockFromJson v = .ok b) : ∃ fs, v = .obj fs := by
  match v with
  | .obj fs => exact ⟨fs, rfl⟩
  | .null | .bool _ | .num _ | .str _ | .time _ | .arr _ =>
    exact absurd h (by simp [blockFromJson])

/-! ## Claim theorems -/

/-- Claim C1, counterexample.  A fully successful height whose raw block
embeds one full transaction produces a trace with zero transaction writes, and
the end-of-run statistics carry only block and receipt counts — no Transaction
records are produced, contrary to the claim. -/
theorem c1_counterexample :
    rawTxCount rawBlockA = 1 ∧
    countTransactionWrites (process_blocks envA 1 1).1 = 0 ∧
    (process_blocks envA 1 1).2 = .ok ⟨1, 1⟩ :=
  ⟨rfl, rfl, rfl⟩

/-- Claim C1, amended: the pipeline normalizes and writes blocks and receipts
only; for every environment and range, no transaction write ever occurs, and
on normal completion the reported statistics are exactly the number of block
writes and receipt writes in the trace. -/
theorem c1_amended (env : RpcEnv) (start count : Nat) :
    countTransactionWrites (process_blocks env start count).1 = 0 ∧
    (∀ stats, (process_blocks env start count).2 = .ok stats →
      stats.blocks_inserted =
        countBlockWrites (process_blocks env start count).1 ∧
      stats.receipts_inserted =
        countReceiptWrites (process_blocks env start count).1) := by
  have hcount := countTransactionWrites_processLoop env count start
  cases hp : processLoop env start count with
  | mk evs ab =>
    rw [hp] at hcount
    cases ab with
    | some a =>
      rw [process_blocks_abort hp]
      exact ⟨hcount, fun stats hst => absurd hst (by simp)⟩
    | none =>
      rw [process_blocks_ok hp]
      refine ⟨hcount, fun stats hst => ?_⟩
      simp only at hst
      cases hst
      exact ⟨rfl, rfl⟩

/-- Claim C1, witness for the amended theorem at a concrete successful
one-height run. -/
theorem c1_witness :
    countTransactionWrites (process_blocks envA 1 1).1 = 0 ∧
    RunStats.blocks_inserted ⟨1, 1⟩ =
      countBlockWrites (process_blocks envA 1 1).1 :=
  ⟨(c1_amended envA 1 1).1, ((c1_amended envA 1 1).2 ⟨1, 1⟩ rfl).1⟩

/-- Claim C2, counterexample.  Receipt statuses are not converted to
booleans: after the full conversion-and-deserialization path, the status
fields are still the raw hex strings `0x1` and `0x2` (the `Receipt` record
stores a string, and no `decode_bool` exists in the pipeline). -/
theorem c2_counterexample :
    decodedStatuses (.ok (respOf rawBlockA))
        (.arr [rawReceipt1, rawReceipt2]) 1
      = some ["0x1", "0x2"] := rfl

/-- Claim C2, amended: the receipt `status` field passes through the
normalizer completely unchanged as the raw hex string and is deserialized
verbatim into the string-typed `status` field of the `Receipt` record; no
boolean conversion is performed anywhere. -/
theorem c2_amended :
    (∀ (bn : Nat) (ts : JValue) (fs out : JObj),
      convReceipt bn ts (.obj fs) = .ok (.obj out) →
      jLookup out "status" = jLookup fs "status") ∧
    (∀ (fs : JObj) (r : Receipt), receiptFromJson (.obj fs) = .ok r →
      jLookup fs "status" = some (.str r.status)) := by
  constructor
  · intro bn ts fs out h
    exact convReceipt_lookup_ne h "status" (by decide)
  · intro fs r h
    exact (receiptFromJson_fields h).2

/-- Claim C2, witness for the amended theorem at a concrete receipt with
status `0x2`. -/
theorem c2_witness :
    jLookup [("status", JValue.str "0x2"), ("blockNumber", JValue.num 1),
        ("blockTimestamp", JValue.time 0)] "status"
      = jLookup [("status", JValue.str "0x2")] "status" :=
  c2_amended.1 1 (.time 0) [("status", JValue.str "0x2")]
    [("status", JValue.str "0x2"), ("blockNumber", JValue.num 1),
      ("blockTimestamp", JValue.time 0)] rfl

/-- Claim C3, counterexample.  Hex decoding is neither total nor
zero-defaulting: a non-hex string such as `invalid` leaves the field
unchanged (not `0`), and the empty string makes the converter panic
(`&hex[2..]` is out of bounds) instead of yielding `0`. -/
theorem c3_counterexample :
    convI128Field (.str "invalid") = .ok (.str "invalid") ∧
    convI128Field (.str "") = .crashed ∧
    convert_block_hex_to_decimal (.obj [("difficulty", .str "invalid")])
      = .ok (.obj [("difficulty", .str "invalid")]) ∧
    convert_block_hex_to_decimal (.obj [("difficulty", .str "")])
      = .crashed :=
  ⟨rfl, rfl, rfl, rfl⟩

/-- Claim C3, amended: the decoder blindly strips the first two characters
and parses the rest as base-16; a string shorter than two characters panics
(out-of-bounds slice), and a parse failure leaves the original string value
in place unchanged — it is never replaced by `0`. -/
theorem c3_amended (s : String) :
    (s.data.length < 2 → convI128Field (.str s) = .crashed) ∧
    (2 ≤ s.data.length →
      parseRadix16In I128_MIN I128_MAX (String.mk (s.data.drop 2)) = none →
      convI128Field (.str s) = .ok (.str s)) := by
  constructor
  · intro h
    have hlen : s.length < 2 := h
    simp [convI128Field, sliceFrom2, hlen]
  · intro h hp
    have hlen : ¬s.length < 2 := Nat.not_lt.mpr h
    simp [convI128Field, sliceFrom2, hlen, hp]

/-- Claim C3, witness: the empty string panics, and the non-hex `0xzz`
passes through unchanged. -/
theorem c3_witness :
    convI128Field (.str "") = .crashed ∧
    convI128Field (.str "0xzz") = .ok (.str "0xzz") :=
  ⟨(c3_amended "").1 (by decide), (c3_amended "0xzz").2 (by decide) rfl⟩

/-- Claim C4, counterexample.  A schema-validation failure on the fetched
block is not confined to its height: at height 1 the block fetch succeeds but
the block lacks `hash`, and the whole 2-height run aborts with an error —
height 2 is never attempted (its fetch would have succeeded). -/
theorem c4_counterexample :
    process_blocks envC4 1 2 =
      ([.blockFetch 1 true], .error (.blockDecodeFailed 1 "missing field")) :=
  rfl

/-- Claim C4, amended: transport or missing-result failures of the block
fetch, and every receipts-side failure (fetch, hex conversion,
deserialization) abort only their height and the loop continues; but a
schema-validation failure on the fetched block aborts the entire run at once,
before any remaining height is attempted.  (Store-side write and flush
failures, which also abort, are outside this model.) -/
theorem c4_amended :
    (∀ (env : RpcEnv) (n rest : Nat) (e : String),
      get_block (env.blockResp n) = .error e →
      processLoop env n (rest + 1) =
        (Ev.blockFetch n false :: (processLoop env (n + 1) rest).1,
          (processLoop env (n + 1) rest).2)) ∧
    (∀ (env : RpcEnv) (n rest : Nat) (v conv : JValue) (e : String),
      get_block (env.blockResp n) = .ok v →
      convert_block_hex_to_decimal v = .ok conv →
      blockFromJson conv = .error e →
      processLoop env n (rest + 1) =
        ([.blockFetch n true], some (.blockDecodeFailed n e))) ∧
    (∀ (env : RpcEnv) (n : Nat) (v conv : JValue) (b : Block) (e : String),
      get_block (env.blockResp n) = .ok v →
      convert_block_hex_to_decimal v = .ok conv →
      blockFromJson conv = .ok b →
      get_block_receipts (env.receiptsResp n) = .error e →
      (processHeight env n).2 = none) ∧
    (∀ (env : RpcEnv) (n : Nat) (v conv rv : JValue) (b : Block) (e : String),
      get_block (env.blockResp n) = .ok v →
      convert_block_hex_to_decimal v = .ok conv →
      blockFromJson conv = .ok b →
      get_block_receipts (env.receiptsResp n) = .ok rv →
      convert_receipts_hex_to_decimal (env.refetchResp n) rv n = .err e →
      (processHeight env n).2 = none) ∧
    (∀ (env : RpcEnv) (n : Nat) (v conv rv rconv : JValue) (b : Block)
        (e : String),
      get_block (env.blockResp n) = .ok v →
      convert_block_hex_to_decimal v = .ok conv →
      blockFromJson conv = .ok b →
      get_block_receipts (env.receiptsResp n) = .ok rv →
      convert_receipts_hex_to_decimal (env.refetchResp n) rv n = .ok rconv →
      receiptsFromJson rconv = .error e →
      (processHeight env n).2 = none) := by
  refine ⟨?_, ?_, ?_, ?_, ?_⟩
  · intro env n rest e h
    rw [processLoop_succ_cont (processHeight_fetch_err h)]
    rfl
  · intro env n rest v conv e hf hc hd
    exact processLoop_succ_abort (processHeight_decode_err hf hc hd)
  · intro env n v conv b e hf hc hd hr
    rw [processHeight_receipts_fetch_err hf hc hd hr]
  · intro env n v conv rv b e hf hc hd hr hcr
    rw [processHeight_receipts_conv_err hf hc hd hr hcr]
  · intro env n v conv rv rconv b e hf hc hd hr hcr hrd
    rw [processHeight_receipts_decode_err hf hc hd hr hcr hrd]

/-- Claim C4, witness: a failed block fetch merely skips its height, while a
block failing schema validation aborts the run. -/
theorem c4_witness :
    processLoop envC5 2 1 =
      (Ev.blockFetch 2 false :: (processLoop envC5 3 0).1,
        (processLoop envC5 3 0).2) ∧
    processLoop envC4 1 2 =
      ([.blockFetch 1 true], some (.blockDecodeFailed 1 "missing field")) :=
  ⟨c4_amended.1 envC5 2 0 "boom" rfl,
   c4_amended.2.1 envC4 1 1 rawBlockNoHash _ "missing field" rfl rfl rfl⟩

/-- Claim C5, confirmed: with a 3-height range whose middle block fetch fails
while the other two heights fetch, convert and deserialize fine (receipts
endpoint down throughout), all three heights are attempted, heights 1 and 3
are written, and the final statistics report exactly 2 blocks. -/
theorem c5_theorem (env : RpcEnv) (start : Nat) (v1 w1 v3 w3 : JValue)
    (b1 b3 : Block) (er1 e2 er3 : String)
    (h1f : get_block (env.blockResp start) = .ok v1)
    (h1c : convert_block_hex_to_decimal v1 = .ok w1)
    (h1d : blockFromJson w1 = .ok b1)
    (h1r : get_block_receipts (env.receiptsResp start) = .error er1)
    (h2 : get_block (env.blockResp (start + 1)) = .error e2)
    (h3f : get_block (env.blockResp (start + 2)) = .ok v3)
    (h3c : convert_block_hex_to_decimal v3 = .ok w3)
    (h3d : blockFromJson w3 = .ok b3)
    (h3r : get_block_receipts (env.receiptsResp (start + 2)) = .error er3) :
    process_blocks env start 3 =
      ([.blockFetch start true, .blockWrite b1, .receiptsFetch start false,
        .blockFetch (start + 1) false, .blockFetch (start + 2) true,
        .blockWrite b3, .receiptsFetch (start + 2) false], .ok ⟨2, 0⟩) := by
  have hp1 := processHeight_receipts_fetch_err h1f h1c h1d h1r
  have hp2 := processHeight_fetch_err h2
  have hp3 := processHeight_receipts_fetch_err h3f h3c h3d h3r
  have h12 : start + 1 + 1 = start + 2 := by omega
  have t3 : processLoop env (start + 2) 1 =
      ([.blockFetch (start + 2) true, .blockWrite b3,
        .receiptsFetch (start + 2) false], none) := by
    show processLoop env (start + 2) (0 + 1) = _
    rw [processLoop_succ_cont hp3]
    simp [processLoop_zero]
  have t2 : processLoop env (start + 1) 2 =
      ([.blockFetch (start + 1) false, .blockFetch (start + 2) true,
        .blockWrite b3, .receiptsFetch (start + 2) false], none) := by
    show processLoop env (start + 1) (1 + 1) = _
    rw [processLoop_succ_cont hp2, h12, t3]
    rfl
  have t1 : processLoop env start 3 =
      ([.blockFetch start true, .blockWrite b1, .receiptsFetch start false,
        .blockFetch (start + 1) false, .blockFetch (start + 2) true,
        .blockWrite b3, .receiptsFetch (start + 2) false], none) := by
    show processLoop env start (2 + 1) = _
    rw [processLoop_succ_cont hp1, t2]
    rfl
  rw [process_blocks_ok t1]
  simp [countBlockWrites, countReceiptWrites, List.filter, isBlockWriteEv,
    isReceiptWriteEv]

/-- Claim C5, witness at the concrete 3-height environment. -/
theorem c5_witness :
    process_blocks envC5 1 3 =
      ([.blockFetch 1 true, .blockWrite blockRecA, .receiptsFetch 1 false,
        .blockFetch 2 false, .blockFetch 3 true, .blockWrite blockRecB,
        .receiptsFetch 3 false], .ok ⟨2, 0⟩) := by
  have := c5_theorem envC5 1 rawBlockA _ rawBlockB _ blockRecA blockRecB
    "down" "boom" "down" rfl rfl rfl rfl rfl rfl rfl rfl rfl
  simpa using this

/-- Claim C6, counterexample.  The receipts conversion re-derives the
timestamp from a second block fetch, so when the node answers the two fetches
differently the written block carries timestamp second 1 while the written
receipt carries second 2 — the receipt timestamp is not bit-identical to the
block timestamp. -/
theorem c6_counterexample :
    writtenBlockTimes (process_blocks envC6 1 1).1 = [1] ∧
    writtenReceiptTimes (process_blocks envC6 1 1).1 = [2] :=
  ⟨rfl, rfl⟩

/-- Claim C6, amended: when the re-fetch inside the receipts conversion
returns the same response as the original block fetch, every deserialized
receipt of the height carries a blockTimestamp bit-identical to the written
block timestamp. -/
theorem c6_amended (env : RpcEnv) (n : Nat) (v conv rv rconv : JValue)
    (b : Block) (rs : List Receipt)
    (hsame : env.refetchResp n = env.blockResp n)
    (hf : get_block (env.blockResp n) = .ok v)
    (hc : convert_block_hex_to_decimal v = .ok conv)
    (hd : blockFromJson conv = .ok b)
    (hr : get_block_receipts (env.receiptsResp n) = .ok rv)
    (hcr : convert_receipts_hex_to_decimal (env.refetchResp n) rv n
      = .ok rconv)
    (hrd : receiptsFromJson rconv = .ok rs) :
    ∀ r ∈ rs, r.block_timestamp = b.timestamp := by
  intro r hrmem
  obtain ⟨fs, rfl⟩ := blockFromJson_obj hd
  have hts : jLookup fs "timestamp" = some (.time b.timestamp) :=
    blockFromJson_timestamp hd
  rw [hsame] at hcr
  match rv, hcr with
  | .arr items, hcr =>
    simp only [convert_receipts_hex_to_decimal, hf, hc] at hcr
    have hidx : jIndexStr (.obj fs) "timestamp" = .time b.timestamp := by
      simp [jIndexStr, jGet, hts]
    rw [hidx] at hcr
    cases hcl : convReceiptList n (.time b.timestamp) items with
    | ok items2 =>
      rw [hcl] at hcr
      cases hcr
      have hrd2 : receiptListFromJson items2 = .ok rs := hrd
      have hti := convReceiptList_timestamp n (.time b.timestamp) items
        items2 rs hcl hrd2 r hrmem
      exact JValue.time.inj hti
    | err e => rw [hcl] at hcr; cases hcr
    | crashed => rw [hcl] at hcr; cases hcr
  | .null, hcr | .bool _, hcr | .num _, hcr | .str _, hcr | .time _, hcr
  | .obj _, hcr =>
    exact absurd hcr (by simp [convert_receipts_hex_to_decimal])

/-- Claim C6, witness at a consistent environment: the single written receipt
carries the block record timestamp. -/
theorem c6_witness :
    receiptRecA.block_timestamp = blockRecA.timestamp :=
  c6_amended envA 1 rawBlockA _ (.arr [rawReceipt1]) _ blockRecA
    [receiptRecA] rfl rfl rfl rfl rfl rfl rfl receiptRecA
    (List.mem_cons_self receiptRecA [])

/-- Claim C7, counterexample.  The trace of a fully successful height is
block fetch (kind 0), then block write (kind 1), then receipts fetch (kind
3), then receipt write (kind 4): the block is written before the receipts
fetch even starts, so the two fetches do not both complete before the height
enters the writing stage, and they are not concurrent. -/
theorem c7_counterexample :
    (process_blocks envA 1 1).1.map evKind = [0, 1, 3, 4] := rfl

/-- Claim C7, amended: within one height the two fetches are issued strictly
sequentially — the block fetch completes and the block is written first, and
only then is the receipts fetch performed, followed by receipt writes. -/
theorem c7_amended (env : RpcEnv) (n : Nat) (v conv rv rconv : JValue)
    (b : Block) (rs : List Receipt)
    (hf : get_block (env.blockResp n) = .ok v)
    (hc : convert_block_hex_to_decimal v = .ok conv)
    (hd : blockFromJson conv = .ok b)
    (hr : get_block_receipts (env.receiptsResp n) = .ok rv)
    (hcr : convert_receipts_hex_to_decimal (env.refetchResp n) rv n
      = .ok rconv)
    (hrd : receiptsFromJson rconv = .ok rs) :
    processHeight env n =
      ([.blockFetch n true, .blockWrite b, .receiptsFetch n true]
        ++ rs.map Ev.receiptWrite, none) :=
  processHeight_ok hf hc hd hr hcr hrd

/-- Claim C7, witness at the concrete happy-path environment. -/
theorem c7_witness :
    processHeight envA 1 =
      ([.blockFetch 1 true, .blockWrite blockRecA, .receiptsFetch 1 true]
        ++ [receiptRecA].map Ev.receiptWrite, none) :=
  c7_amended envA 1 rawBlockA _ (.arr [rawReceipt1]) _ blockRecA
    [receiptRecA] rfl rfl rfl rfl rfl rfl

/-- Claim C8, counterexample.  A hex numeral matching `0x[0-9a-f]+` whose
value does not fit the target integer type is not decoded at all: 32 `f`
digits exceed the `i128` range and the field keeps its original string, and
16 `f` digits exceed the `i64` range used for `number`. -/
theorem c8_counterexample :
    convI128Field (.str bigHex) = .ok (.str bigHex) ∧
    convI64Field (.str "0xffffffffffffffff")
      = .ok (.str "0xffffffffffffffff") :=
  ⟨rfl, rfl⟩

theorem hexDigitVal_lower {c : Char} (h : isLowerHexDigit c) :
    hexDigitVal c = some (hexDigitSpec c) := by
  rcases h with ⟨h1, h2⟩ | ⟨h1, h2⟩
  · simp [hexDigitVal, hexDigitSpec, h1, h2]
  · have h3 : ¬c ≤ '9' := by
      intro hcl
      exact absurd (le_trans h1 hcl) (by decide)
    simp [hexDigitVal, hexDigitSpec, h1, h2, h3]

theorem hexDigitsAccum_spec :
    ∀ (ds : List Char), (∀ c ∈ ds, isLowerHexDigit c) →
      ∀ acc : Nat,
        hexDigitsAccum acc ds = some (acc * 16 ^ ds.length + hexValMSB ds) := by
  intro ds
  induction ds with
  | nil => intro _ acc; simp [hexDigitsAccum, hexValMSB]
  | cons c rest ih =>
    intro hall acc
    have hc := hexDigitVal_lower (hall c (List.mem_cons_self c rest))
    have hrest : ∀ x ∈ rest, isLowerHexDigit x :=
      fun x hx => hall x (List.mem_cons_of_mem c hx)
    simp only [hexDigitsAccum, hc]
    rw [ih hrest (acc * 16 + hexDigitSpec c)]
    congr 1
    simp only [hexValMSB, List.length_cons]
    ring

/-- Claim C8, amended: a `0x[0-9a-f]+` numeral decodes to the integer value
of its digits exactly when that value is small enough to survive both the
parse and the JSON re-serialization (at most 2^64 - 1 for the `i128` fields);
larger numerals leave the field unchanged (or panic); and the end-to-end
example block normalizes to number 1, difficulty 5 and the instant of epoch
second 0x60000000. -/
theorem c8_amended :
    (∀ ds : List Char, ds ≠ [] → (∀ c ∈ ds, isLowerHexDigit c) →
      ((hexValMSB ds : Int) ≤ U64_MAX) →
      convI128Field (.str (String.mk ('0' :: 'x' :: ds)))
        = .ok (.num (hexValMSB ds))) ∧
    convert_block_hex_to_decimal (.obj [("number", .str "0x1"),
        ("difficulty", .str "0x5"), ("timestamp", .str "0x60000000"),
        ("hash", .str "0xabc"), ("uncles", .arr [])])
      = .ok (.obj [("number", .num 1), ("difficulty", .num 5),
        ("timestamp", .time 1610612736), ("hash", .str "0xabc"),
        ("uncles", .arr [])]) := by
  constructor
  · intro ds hne hall hle
    match ds, hne, hall, hle with
    | c :: rest, _, hall, hle =>
      have hc : isLowerHexDigit c := hall c (List.mem_cons_self c rest)
      have hplus : ¬c = '+' := by
        intro hcc; rw [hcc] at hc; exact absurd hc (by decide)
      have hminus : ¬c = '-' := by
        intro hcc; rw [hcc] at hc; exact absurd hc (by decide)
      have hslice : sliceFrom2 (String.mk ('0' :: 'x' :: c :: rest))
          = some (String.mk (c :: rest)) := by
        simp [sliceFrom2]
      have hdv : hexDigitsVal (c :: rest) = some (hexValMSB (c :: rest)) := by
        have hacc := hexDigitsAccum_spec (c :: rest) hall 0
        simpa [hexDigitsVal] using hacc
      have hparse : fromStrRadix16 (String.mk (c :: rest))
          = some ((hexValMSB (c :: rest) : Nat) : Int) := by
        simp [fromStrRadix16, hplus, hminus, hdv]
      have h0 : (0 : Int) ≤ ((hexValMSB (c :: rest) : Nat) : Int) :=
        Int.natCast_nonneg _
      have hv1 : I128_MIN ≤ ((hexValMSB (c :: rest) : Nat) : Int) :=
        le_trans (by norm_num [I128_MIN]) h0
      have hv2 : ((hexValMSB (c :: rest) : Nat) : Int) ≤ I128_MAX :=
        le_trans hle (by norm_num [U64_MAX, I128_MAX])
      have hrepr :
          jsonNumberRepresentable ((hexValMSB (c :: rest) : Nat) : Int) :=
        ⟨le_trans (by norm_num [I64_MIN]) h0, hle⟩
      simp [convI128Field, hslice, parseRadix16In, hparse, hv1, hv2, hrepr]
  · rfl

/-- Claim C8, witness: the numeral `0x5` decodes to 5 through the amended
theorem. -/
theorem c8_witness :
    convI128Field (.str (String.mk ['0', 'x', '5']))
      = .ok (.num (hexValMSB ['5'])) :=
  c8_amended.1 ['5'] (by decide) (by decide) (by decide)

/-- Claim C9, counterexample.  The receipt `type` tag — neither a numeric nor
a timestamp field, and kept a string — is rewritten from `0x2` to `2`, and
`blockNumber` and `blockTimestamp` entries are injected, so the normalization
pass changes more than the enumerated numeric and timestamp conversions. -/
theorem c9_counterexample :
    convReceipt 1 (.time 0) (.obj [("type", .str "0x2")])
      = .ok (.obj [("type", .str "2"), ("blockNumber", .num 1),
          ("blockTimestamp", .time 0)]) := rfl

/-- Claim C9, amended: apart from the converted numeric and timestamp keys,
the stripped receipt `type` tag and the injected or removed block
cross-reference keys, every field passes through with value and presence
unchanged — in particular addresses, hashes and bloom filters stay opaque
strings, and optional fields keep their presence. -/
theorem c9_amended :
    (∀ (fs out : JObj),
      convert_block_hex_to_decimal (.obj fs) = .ok (.obj out) →
      ∀ k, k ∉ blockConvKeys → jLookup out k = jLookup fs k) ∧
    (∀ (fs out : JObj),
      convert_block_hex_to_decimal (.obj fs) = .ok (.obj out) →
      ∀ k, (jLookup out k).isSome = (jLookup fs k).isSome) ∧
    (∀ (bn : Nat) (ts : JValue) (fs out : JObj),
      convReceipt bn ts (.obj fs) = .ok (.obj out) →
      ∀ k, k ∉ receiptTouchedKeys → jLookup out k = jLookup fs k) ∧
    (∀ (bn : Nat) (ts : JValue) (fs out : JObj),
      convReceipt bn ts (.obj fs) = .ok (.obj out) →
      ∀ k, k ≠ "block_number" → k ≠ "block_timestamp" → k ≠ "blockNumber" →
        k ≠ "blockTimestamp" →
        (jLookup out k).isSome = (jLookup fs k).isSome) :=
  ⟨fun _ _ h => convert_block_lookup_ne h,
   fun _ _ h => convert_block_isSome h,
   fun _ _ _ _ h => convReceipt_lookup_ne h,
   fun _ _ _ _ h => convReceipt_isSome h⟩

/-- Claim C9, witness: the opaque `miner` address survives block conversion
untouched, and the `status` slot keeps its presence through receipt
conversion. -/
theorem c9_witness :
    jLookup [("difficulty", JValue.num 5), ("miner", JValue.str "0xm")]
        "miner"
      = jLookup [("difficulty", JValue.str "0x5"),
          ("miner", JValue.str "0xm")] "miner" ∧
    (jLookup [("status", JValue.str "0x1"), ("blockNumber", JValue.num 2),
        ("blockTimestamp", JValue.time 7)] "status").isSome
      = (jLookup [("status", JValue.str "0x1")] "status").isSome :=
  ⟨c9_amended.1 [("difficulty", JValue.str "0x5"),
      ("miner", JValue.str "0xm")]
      [("difficulty", JValue.num 5), ("miner", JValue.str "0xm")]
      rfl "miner" (by decide),
   c9_amended.2.2.2 2 (.time 7) [("status", JValue.str "0x1")]
      [("status", JValue.str "0x1"), ("blockNumber", JValue.num 2),
        ("blockTimestamp", JValue.time 7)]
      rfl "status" (by decide) (by decide) (by decide) (by decide)⟩

/-- Claim C10, confirmed: receipt normalization re-fetches the block; when
that second fetch fails, the conversion returns its error, the height writes
the block but no receipts, and the loop is not aborted. -/
theorem c10_theorem (env : RpcEnv) (n : Nat) (v conv : JValue) (b : Block)
    (items : List JValue) (e : String)
    (hf : get_block (env.blockResp n) = .ok v)
    (hc : convert_block_hex_to_decimal v = .ok conv)
    (hd : blockFromJson conv = .ok b)
    (hr : get_block_receipts (env.receiptsResp n) = .ok (.arr items))
    (hrf : get_block (env.refetchResp n) = .error e) :
    convert_receipts_hex_to_decimal (env.refetchResp n) (.arr items) n
        = .err e ∧
      processHeight env n =
        ([.blockFetch n true, .blockWrite b, .receiptsFetch n true],
          none) := by
  have hcr : convert_receipts_hex_to_decimal (env.refetchResp n)
      (.arr items) n = .err e := by
    simp [convert_receipts_hex_to_decimal, hrf]
  exact ⟨hcr, processHeight_receipts_conv_err hf hc hd hr hcr⟩

/-- Claim C10, witness: with the re-fetch endpoint failing, the block is
written, the conversion errors, no receipt is written, and processing
continues. -/
theorem c10_witness :
    convert_receipts_hex_to_decimal (envC10.refetchResp 1)
        (.arr [rawReceipt1]) 1 = .err "flaky" ∧
      processHeight envC10 1 =
        ([.blockFetch 1 true, .blockWrite blockRecA, .receiptsFetch 1 true],
          none) :=
  c10_theorem envC10 1 rawBlockA _ blockRecA [rawReceipt1] "flaky"
    rfl rfl rfl rfl rfl

end Indexer
